import Mathlib

/-!
Shallow embedding of the Sparkplug B MQTT ingestion pipeline
(`mqtt-client.py`, `mqtt-pub.py`): the decoded-payload data model,
the `store_data` reducer, the `on_message` dispatcher, and a
spec-modelled payload codec for the fixture generator, together with
theorems settling the spec claims.
-/

namespace MqttClient

/-- Values as they appear in the decoded payload dictionary produced by
`MessageToDict` and consumed by `store_data`.  Python `str()` is modelled by
`pyStr`.  Floating-point values are modelled by the text `repr` the Python
runtime would print for them, since this development does not model IEEE-754
bit patterns; `int` covers Python integers, `str` covers strings (including
the decimal strings `MessageToDict` produces for 64-bit fields and the
base64 text it produces for bytes fields), and `bool` covers booleans. -/
inductive PyVal where
  | int (n : Int)
  | str (s : String)
  | bool (b : Bool)
  | float (r : String)
deriving DecidableEq, Repr

/-- Python `str()` applied to a decoded value: integers print in base 10,
strings pass through, booleans print as the Python literals `True`/`False`,
floats print their repr text. -/
def pyStr : PyVal → String
  | .int n => toString n
  | .str s => s
  | .bool b => if b then "True" else "False"
  | .float r => r

/-- One decoded metric entry of the payload dictionary, mirroring the keys
`store_data` reads: `name`, `timestamp`, `datatype` and the seven optional
value slots.  Slot types mirror what `MessageToDict` yields: `intValue` is a
Python int, `longValue` a decimal string (64-bit protobuf fields are
rendered as strings), `floatValue`/`doubleValue` Python floats (modelled by
repr text), `booleanValue` a bool, `stringValue` a string, `bytesValue` the
base64 text encoding of the raw bytes. -/
structure DecodedMetric where
  name : Option String := none
  timestamp : Option Nat := none
  datatype : Option Nat := none
  intValue : Option Int := none
  longValue : Option String := none
  floatValue : Option String := none
  doubleValue : Option String := none
  booleanValue : Option Bool := none
  stringValue : Option String := none
  bytesValue : Option String := none
deriving DecidableEq, Repr

/-- The decoded payload dictionary (`MessageToDict` of a Sparkplug B
`Payload`): optional envelope timestamp, optional sequence number, optional
metric list (absent when the payload carried no metrics). -/
structure PayloadDict where
  timestamp : Option Nat := none
  seq : Option Nat := none
  metrics : Option (List DecodedMetric) := none
deriving DecidableEq, Repr

/-- One row of the `devices` table: rowid, the identity tuple (each column
nullable), last-seen timestamp and the online flag stored as 0/1. -/
structure DeviceRow where
  id : Nat
  group_id : Option String
  node_id : Option String
  device_id : Option String
  timestamp : Nat
  online : Nat
deriving DecidableEq, Repr

/-- One row of the `metrics` table: device reference, metric name,
timestamp, datatype tag and the canonical text value. -/
structure MetricRow where
  device_id : Nat
  name : String
  timestamp : Nat
  datatype : Nat
  value : String
deriving DecidableEq, Repr

/-- The SQLite database state: the two tables plus the next fresh rowid for
the `devices` table (SQLite rowids start at 1). -/
structure DBState where
  devices : List DeviceRow := []
  metrics : List MetricRow := []
  nextDeviceId : Nat := 1
deriving DecidableEq, Repr

/-- The empty database produced by `setup_database`. -/
def emptyDB : DBState := {}

/-- SQLite uniqueness conflict for the `UNIQUE(group_id, node_id,
device_id)` constraint: a new tuple conflicts with an existing row exactly
when every column pair is non-NULL and equal — SQLite treats NULL as
distinct from every value, including another NULL. -/
def conflictB (g n d : Option String) (r : DeviceRow) : Bool :=
  g.isSome && n.isSome && d.isSome &&
    (r.group_id == g) && (r.node_id == n) && (r.device_id == d)

/-- Replace the first element satisfying `p` by its image under `f`,
modelling `ON CONFLICT ... DO UPDATE` hitting the (unique) conflicting row. -/
def updateFirst (p : α → Bool) (f : α → α) : List α → List α
  | [] => []
  | x :: xs => if p x then f x :: xs else x :: updateFirst p f xs

/-- The `INSERT ... ON CONFLICT(group_id, node_id, device_id) DO UPDATE`
upsert of `store_data` (lines 105–118): if some existing row conflicts, its
timestamp and online columns are overwritten and its rowid is recovered via
the fallback SELECT; otherwise a fresh row is inserted and its rowid
returned. -/
def devUpsert (g n d : Option String) (ts onl : Nat) (st : DBState) :
    DBState × Nat :=
  match st.devices.find? (conflictB g n d) with
  | some r =>
      ({ st with
          devices := updateFirst (conflictB g n d)
            (fun q => { q with timestamp := ts, online := onl }) st.devices },
        r.id)
  | none =>
      ({ st with
          devices := st.devices ++
            [⟨st.nextDeviceId, g, n, d, ts, onl⟩],
          nextDeviceId := st.nextDeviceId + 1 },
        st.nextDeviceId)

/-- The liveness flag of `store_data` (lines 96–99): 0 for `NDEATH` and
`DDEATH` message types, 1 otherwise (including a missing segment). -/
def online_flag (mt : Option String) : Nat :=
  if mt == some "NDEATH" || mt == some "DDEATH" then 0 else 1

/-- The value-slot scan of `store_data` (lines 130–135): the slots are
probed in the fixed order intValue, longValue, floatValue, doubleValue,
booleanValue, stringValue, bytesValue, and the first one present wins; the
datatype tag plays no role in the scan. -/
def firstSlot (m : DecodedMetric) : Option PyVal :=
  (m.intValue.map PyVal.int) <|> (m.longValue.map PyVal.str) <|>
  (m.floatValue.map PyVal.float) <|> (m.doubleValue.map PyVal.float) <|>
  (m.booleanValue.map PyVal.bool) <|> (m.stringValue.map PyVal.str) <|>
  (m.bytesValue.map PyVal.str)

/-- The metric row `store_data` inserts for a metric entry whose scan
resolved to value `v` (lines 139–142): device reference, name (defaulting
to the empty string), the message-level timestamp, the datatype tag
(defaulting to 0) and the `str()` rendering of the value. -/
def mkMetricRow (devId ts : Nat) (m : DecodedMetric) (v : PyVal) :
    MetricRow :=
  ⟨devId, m.name.getD "", ts, m.datatype.getD 0, pyStr v⟩

/-- One iteration of the metrics loop of `store_data` (lines 122–142): scan
the value slots, skip the entry when no slot is present (`value is None`),
otherwise insert one metric row. -/
def metricStep (devId ts : Nat) (acc : DBState) (m : DecodedMetric) :
    DBState :=
  match firstSlot m with
  | none => acc
  | some v => { acc with metrics := acc.metrics ++ [mkMetricRow devId ts m v] }

/-- The `store_data` reducer (`mqtt-client.py` lines 83–148): extract the
identity tuple from the topic segments with missing segments defaulting to
NULL, derive the online flag from the message type, take the envelope
timestamp or the arrival time, upsert the device row, then append one
metric row per entry whose value-slot scan resolves. -/
def store_data (topic_parts : List String) (payload : PayloadDict)
    (arrival : Nat) (st : DBState) : DBState :=
  let group_id := topic_parts[1]?
  let message_type := topic_parts[2]?
  let node_id := topic_parts[3]?
  let device_id := topic_parts[4]?
  let online := online_flag message_type
  let timestamp := payload.timestamp.getD arrival
  let res := devUpsert group_id node_id device_id timestamp online st
  match payload.metrics with
  | none => res.1
  | some ms => ms.foldl (metricStep res.2 timestamp) res.1

/-- Accumulator-based worker for `pySplit`: walk the characters, cutting a
new segment at each separator. -/
def splitAux (sep : Char) : List Char → List Char → List String
  | [], acc => [String.mk acc.reverse]
  | c :: rest, acc =>
      if c = sep then String.mk acc.reverse :: splitAux sep rest []
      else splitAux sep rest (c :: acc)

/-- Python `str.split` with a one-character separator, as used by
`msg.topic.split('/')`: always returns at least one segment, and empty
segments are kept (so the empty string splits to `[""]`). -/
def pySplit (sep : Char) (s : String) : List String :=
  splitAux sep s.data []

/-- Python truthiness of the decoded payload dictionary, as tested by
`if payload_dict:` — an empty dict is falsy, and the dict is non-empty
exactly when at least one of its keys is present. -/
def pyTruthy (p : PayloadDict) : Bool :=
  p.timestamp.isSome || p.seq.isSome || p.metrics.isSome

/-- The `on_message` callback (`mqtt-client.py` lines 158–179): split the
topic on `/`, ignore messages whose first segment is not `spBv1.0`, then
guard with the truthiness test `if payload_dict:` — which skips both a
payload that failed to decode (`parse_payload` returned `None`, modelled as
`none`) and a successfully decoded but empty dict — and otherwise hand off
to `store_data`. -/
def on_message (topic : String) (decoded : Option PayloadDict)
    (arrival : Nat) (st : DBState) : DBState :=
  let topic_parts := pySplit '/' topic
  if topic_parts[0]? ≠ some "spBv1.0" then st
  else
    match decoded with
    | none => st
    | some payload =>
        if pyTruthy payload then store_data topic_parts payload arrival st
        else st

/-- The keyword arguments of `add_metric` in `mqtt-pub.py`: each slot-typed
value the caller may supply (`kwargs.get(..., default)`), with floating
point values modelled by their repr text and byte sequences by opaque
text. -/
structure Kwargs where
  int_value : Option Int := none
  long_value : Option Int := none
  float_value : Option String := none
  double_value : Option String := none
  boolean_value : Option Bool := none
  string_value : Option String := none
  bytes_value : Option String := none
deriving DecidableEq, Repr

/-- One metric of a publisher-side `Payload` protobuf message: name,
per-metric timestamp, datatype tag and the mutually exclusive value slots
`add_metric` may populate. -/
structure PubMetric where
  name : String
  timestamp : Nat
  datatype : Nat
  intValue : Option Int := none
  longValue : Option Int := none
  floatValue : Option String := none
  doubleValue : Option String := none
  booleanValue : Option Bool := none
  stringValue : Option String := none
  bytesValue : Option String := none
deriving DecidableEq, Repr

/-- A publisher-side `Payload` protobuf message: envelope timestamp,
sequence number, ordered metric list. -/
structure PubPayload where
  timestamp : Nat
  seq : Nat
  metrics : List PubMetric := []
deriving DecidableEq, Repr

/-- The `add_metric` fixture encoder (`mqtt-pub.py` lines 59–98): append a
metric named `name` with timestamp `now` (the current time in epoch
milliseconds) and tag `datatype`, populating the single value slot selected
by the Sparkplug datatype enumeration (Int8=1, Int16=2, Int32=3, Int64=4,
UInt8=5, UInt16=6, UInt32=7, UInt64=8, Float=9, Double=10, Boolean=11,
String=12, DateTime=13, Text=14, UUID=15, Bytes=17); an unrecognized tag
populates no slot. -/
def add_metric (now : Nat) (p : PubPayload) (name : String) (datatype : Nat)
    (kw : Kwargs) : PubPayload :=
  let base : PubMetric := { name := name, timestamp := now, datatype := datatype }
  let m :=
    if datatype = 1 ∨ datatype = 2 ∨ datatype = 3 then
      { base with intValue := some (kw.int_value.getD 0) }
    else if datatype = 4 then
      { base with longValue := some (kw.long_value.getD 0) }
    else if datatype = 5 ∨ datatype = 6 ∨ datatype = 7 then
      { base with intValue := some (kw.int_value.getD 0) }
    else if datatype = 8 then
      { base with longValue := some (kw.long_value.getD 0) }
    else if datatype = 9 then
      { base with floatValue := some (kw.float_value.getD "0.0") }
    else if datatype = 10 then
      { base with doubleValue := some (kw.double_value.getD "0.0") }
    else if datatype = 11 then
      { base with booleanValue := some (kw.boolean_value.getD false) }
    else if datatype = 12 then
      { base with stringValue := some (kw.string_value.getD "") }
    else if datatype = 13 then
      { base with longValue := some (kw.long_value.getD (Int.ofNat now)) }
    else if datatype = 14 then
      { base with stringValue := some (kw.string_value.getD "") }
    else if datatype = 15 then
      { base with stringValue := some (kw.string_value.getD "") }
    else if datatype = 17 then
      { base with bytesValue := some (kw.bytes_value.getD "") }
    else base
  { p with metrics := p.metrics ++ [m] }

/-- A payload built the way the fixture generator builds them: start from an
envelope with timestamp and sequence number and fold `add_metric` over a
list of (name, datatype, kwargs) requests. -/
def mkPayload (ts seq now : Nat) (specs : List (String × Nat × Kwargs)) :
    PubPayload :=
  specs.foldl (fun p s => add_metric now p s.1 s.2.1 s.2.2)
    { timestamp := ts, seq := seq }

/-- Modelled from the spec: the binary serialization of a `Payload` message
(`SerializeToString` / `ParseFromString` of the generated protobuf module
`sparkplug_b_pb2`, which is not part of this repository's sources) is
modelled per §4.1 as a self-describing stream of typed wire tokens. -/
inductive Tok where
  | n (v : Nat)
  | i (v : Int)
  | s (v : String)
  | b (v : Bool)
deriving DecidableEq, Repr

/-- Project a wire token back to a natural number. -/
def Tok.asN : Tok → Option Nat
  | .n v => some v
  | _ => none

/-- Project a wire token back to an integer. -/
def Tok.asI : Tok → Option Int
  | .i v => some v
  | _ => none

/-- Project a wire token back to a string. -/
def Tok.asS : Tok → Option String
  | .s v => some v
  | _ => none

/-- Project a wire token back to a boolean. -/
def Tok.asB : Tok → Option Bool
  | .b v => some v
  | _ => none

/-- Encode an optional field: a presence flag, then the value when present. -/
def encOpt (f : α → Tok) : Option α → List Tok
  | none => [.b false]
  | some a => [.b true, f a]

/-- Decode an optional field, returning the value and the remaining stream. -/
def decOpt (g : Tok → Option α) : List Tok → Option (Option α × List Tok)
  | .b false :: r => some (none, r)
  | .b true :: t :: r => (g t).map (fun a => (some a, r))
  | _ => none

/-- Encode one metric: name, timestamp, datatype tag, then the seven
optional value slots in their field order. -/
def encMetric (m : PubMetric) : List Tok :=
  [.s m.name, .n m.timestamp, .n m.datatype] ++
  encOpt .i m.intValue ++ encOpt .i m.longValue ++
  encOpt .s m.floatValue ++ encOpt .s m.doubleValue ++
  encOpt .b m.booleanValue ++ encOpt .s m.stringValue ++
  encOpt .s m.bytesValue

/-- Decode one metric from the front of a token stream. -/
def decMetric : List Tok → Option (PubMetric × List Tok)
  | .s nm :: .n ts :: .n dt :: r => do
      let (iv, r) ← decOpt Tok.asI r
      let (lv, r) ← decOpt Tok.asI r
      let (fv, r) ← decOpt Tok.asS r
      let (dv, r) ← decOpt Tok.asS r
      let (bv, r) ← decOpt Tok.asB r
      let (sv, r) ← decOpt Tok.asS r
      let (yv, r) ← decOpt Tok.asS r
      some (⟨nm, ts, dt, iv, lv, fv, dv, bv, sv, yv⟩, r)
  | _ => none

/-- Encode a metric list by concatenating the metric encodings. -/
def encMetrics : List PubMetric → List Tok
  | [] => []
  | m :: ms => encMetric m ++ encMetrics ms

/-- Decode exactly `k` metrics from the front of a token stream. -/
def decMetrics : Nat → List Tok → Option (List PubMetric × List Tok)
  | 0, r => some ([], r)
  | k + 1, r => do
      let (m, r1) ← decMetric r
      let (ms, r2) ← decMetrics k r1
      some (m :: ms, r2)

/-- Encode a whole payload: envelope timestamp, sequence number, metric
count, then the metrics. -/
def encodePayload (p : PubPayload) : List Tok :=
  .n p.timestamp :: .n p.seq :: .n p.metrics.length :: encMetrics p.metrics

/-- Decode a whole payload, requiring the stream to be fully consumed; a
stream that does not parse as the schema yields `none` (the whole-message
`DecodeError`). -/
def decodePayload (toks : List Tok) : Option PubPayload :=
  match toks with
  | .n ts :: .n sq :: .n k :: r =>
      match decMetrics k r with
      | some (ms, []) => some ⟨ts, sq, ms⟩
      | _ => none
  | _ => none

/-! Helper lemmas about the embedded operations. -/

lemma devUpsert_metrics (g n d : Option String) (ts onl : Nat)
    (st : DBState) : ((devUpsert g n d ts onl st).1).metrics = st.metrics := by
  unfold devUpsert
  cases st.devices.find? (conflictB g n d) <;> rfl

lemma foldl_metricStep_devices (devId ts : Nat) :
    ∀ (ms : List DecodedMetric) (acc : DBState),
      (ms.foldl (metricStep devId ts) acc).devices = acc.devices := by
  intro ms
  induction ms with
  | nil => intro acc; rfl
  | cons m ms ih =>
      intro acc
      rw [List.foldl_cons, ih]
      unfold metricStep
      cases firstSlot m <;> rfl

lemma foldl_metricStep_metrics (devId ts : Nat) :
    ∀ (ms : List DecodedMetric) (acc : DBState),
      (ms.foldl (metricStep devId ts) acc).metrics =
        acc.metrics ++
          ms.filterMap (fun m => (firstSlot m).map (mkMetricRow devId ts m)) := by
  intro ms
  induction ms with
  | nil => intro acc; simp
  | cons m ms ih =>
      intro acc
      rw [List.foldl_cons, ih]
      unfold metricStep
      cases h : firstSlot m with
      | none => simp [h]
      | some v => simp [h]

lemma store_data_metrics (parts : List String) (p : PayloadDict)
    (arrival : Nat) (st : DBState) :
    (store_data parts p arrival st).metrics =
      st.metrics ++ (p.metrics.getD []).filterMap (fun m =>
        (firstSlot m).map (mkMetricRow
          (devUpsert parts[1]? parts[3]? parts[4]? (p.timestamp.getD arrival)
            (online_flag parts[2]?) st).2
          (p.timestamp.getD arrival) m)) := by
  unfold store_data
  cases hm : p.metrics with
  | none => simp [devUpsert_metrics]
  | some ms => simp [foldl_metricStep_metrics, devUpsert_metrics]

lemma store_data_devices (parts : List String) (p : PayloadDict)
    (arrival : Nat) (st : DBState) :
    (store_data parts p arrival st).devices =
      ((devUpsert parts[1]? parts[3]? parts[4]? (p.timestamp.getD arrival)
        (online_flag parts[2]?) st).1).devices := by
  unfold store_data
  cases hm : p.metrics with
  | none => simp
  | some ms => simp [foldl_metricStep_devices]

lemma mem_updateFirst_of_find? {α : Type} (p : α → Bool) (f : α → α) :
    ∀ (l : List α) (r : α), l.find? p = some r → f r ∈ updateFirst p f l := by
  intro l
  induction l with
  | nil => intro r h; simp [List.find?] at h
  | cons x xs ih =>
      intro r h
      by_cases hp : p x
      · rw [List.find?_cons_of_pos _ hp] at h
        injection h with h
        subst h
        unfold updateFirst
        rw [if_pos hp]
        exact List.mem_cons_self _ _
      · rw [List.find?_cons_of_neg _ hp] at h
        unfold updateFirst
        rw [if_neg hp]
        exact List.mem_cons_of_mem _ (ih r h)

lemma conflictB_eq {g n d : Option String} {r : DeviceRow}
    (h : conflictB g n d r = true) :
    r.group_id = g ∧ r.node_id = n ∧ r.device_id = d := by
  simp only [conflictB, Bool.and_eq_true, beq_iff_eq] at h
  exact ⟨h.1.1.2, h.1.2, h.2⟩

lemma devUpsert_mem (g n d : Option String) (ts onl : Nat) (st : DBState) :
    ∃ r ∈ ((devUpsert g n d ts onl st).1).devices,
      r.group_id = g ∧ r.node_id = n ∧ r.device_id = d ∧
        r.timestamp = ts ∧ r.online = onl := by
  unfold devUpsert
  cases hf : st.devices.find? (conflictB g n d) with
  | none =>
      refine ⟨⟨st.nextDeviceId, g, n, d, ts, onl⟩, ?_, rfl, rfl, rfl, rfl, rfl⟩
      simp
  | some r =>
      have hc : conflictB g n d r = true := List.find?_some hf
      obtain ⟨h1, h2, h3⟩ := conflictB_eq hc
      exact ⟨{ r with timestamp := ts, online := onl },
        mem_updateFirst_of_find? _ _ _ _ hf, h1, h2, h3, rfl, rfl⟩

lemma online_flag_eq_zero_iff (mt : Option String) :
    online_flag mt = 0 ↔ (mt = some "NDEATH" ∨ mt = some "DDEATH") := by
  unfold online_flag
  by_cases h1 : mt = some "NDEATH" <;> by_cases h2 : mt = some "DDEATH" <;>
    simp [h1, h2]

lemma length_filterMap_map_eq (devId ts : Nat) :
    ∀ (l : List DecodedMetric),
      (l.filterMap (fun m => (firstSlot m).map (mkMetricRow devId ts m))).length =
        (l.filter (fun m => (firstSlot m).isSome)).length := by
  intro l
  induction l with
  | nil => rfl
  | cons m ms ih =>
      cases h : firstSlot m with
      | none => simp [List.filterMap_cons, List.filter_cons, h, ih]
      | some v => simp [List.filterMap_cons, List.filter_cons, h, ih]

lemma decOpt_encOpt {α : Type} (f : α → Tok) (g : Tok → Option α)
    (hfg : ∀ a, g (f a) = some a) (o : Option α) (r : List Tok) :
    decOpt g (encOpt f o ++ r) = some (o, r) := by
  cases o with
  | none => rfl
  | some a => simp [encOpt, decOpt, hfg]

lemma decMetric_encMetric (m : PubMetric) (r : List Tok) :
    decMetric (encMetric m ++ r) = some (m, r) := by
  obtain ⟨nm, ts, dt, iv, lv, fv, dv, bv, sv, yv⟩ := m
  simp [encMetric, decMetric, List.append_assoc,
    decOpt_encOpt Tok.i Tok.asI (fun a => rfl),
    decOpt_encOpt Tok.s Tok.asS (fun a => rfl),
    decOpt_encOpt Tok.b Tok.asB (fun a => rfl)]

lemma decMetrics_encMetrics :
    ∀ (ms : List PubMetric) (r : List Tok),
      decMetrics ms.length (encMetrics ms ++ r) = some (ms, r) := by
  intro ms
  induction ms with
  | nil => intro r; rfl
  | cons m ms ih =>
      intro r
      simp [encMetrics, decMetrics, List.append_assoc, decMetric_encMetric, ih]

lemma decode_encode (p : PubPayload) :
    decodePayload (encodePayload p) = some p := by
  obtain ⟨ts, sq, ms⟩ := p
  have h := decMetrics_encMetrics ms []
  rw [List.append_nil] at h
  simp [encodePayload, decodePayload, h]

/-! Theorems settling the spec claims. -/

/-- C1: the claimed uniqueness invariant fails on the code exactly in the
device-absent case.  SQLite's `UNIQUE(group_id, node_id, device_id)`
constraint treats a NULL `device_id` as distinct from every value, NULL
included, so the `ON CONFLICT` upsert never fires for a node-level message:
storing the same node-level message twice leaves two rows for
(Group01, Node01, NULL).  By contrast, when all three tuple components are
present the upsert is idempotent and exactly one row remains. -/
theorem c1_null_device_id_duplicates_row :
    ((store_data ["spBv1.0", "Group01", "NBIRTH", "Node01"]
        { timestamp := some 100 } 0
        (store_data ["spBv1.0", "Group01", "NBIRTH", "Node01"]
          { timestamp := some 100 } 0 emptyDB)).devices.filter
      (fun r => r.group_id == some "Group01" && r.node_id == some "Node01" &&
        r.device_id == (none : Option String))).length = 2 ∧
    (store_data ["spBv1.0", "Group01", "DBIRTH", "Node01", "Device01"]
        { timestamp := some 100 } 0
        (store_data ["spBv1.0", "Group01", "DBIRTH", "Node01", "Device01"]
          { timestamp := some 100 } 0 emptyDB)).devices.length = 1 := by
  exact ⟨rfl, rfl⟩

/-- C2 counterexample: a metric carrying its own timestamp 50 inside an
envelope with timestamp 100 is stored with timestamp 100 — `store_data`
never reads the per-metric timestamp, refuting the claimed precedence of
the metric's own timestamp. -/
theorem c2_metric_timestamp_ignored :
    ((store_data ["spBv1.0", "G", "DDATA", "N", "D"]
        { timestamp := some 100,
          metrics := some [{ name := some "T", timestamp := some 50,
                             datatype := some 3, intValue := some 7 }] }
        0 emptyDB).metrics.map (fun r => r.timestamp)) = [100] ∧
      (100 : Nat) ≠ 50 :=
  ⟨rfl, by decide⟩

/-- C2 (amended): every metric row appended by `store_data` carries the
message-level timestamp — the envelope timestamp when present, else the
arrival time; the per-metric timestamp never reaches storage. -/
theorem c2_stored_metric_timestamp (parts : List String) (p : PayloadDict)
    (arrival : Nat) (st : DBState) (r : MetricRow)
    (hr : r ∈ (store_data parts p arrival st).metrics.drop st.metrics.length) :
    r.timestamp = p.timestamp.getD arrival := by
  rw [store_data_metrics, List.drop_left] at hr
  obtain ⟨m, hm, hEq⟩ := List.mem_filterMap.1 hr
  obtain ⟨v, hv, rfl⟩ := Option.map_eq_some'.1 hEq
  rfl

/-- Witness for the amended C2 at a concrete input. -/
theorem c2_stored_metric_timestamp_witness :
    (mkMetricRow 1 100 { intValue := some 7 } (PyVal.int 7)) ∈
        (store_data ["spBv1.0", "G", "NDATA", "N"]
          { timestamp := some 100, metrics := some [{ intValue := some 7 }] }
          0 emptyDB).metrics.drop emptyDB.metrics.length ∧
      (mkMetricRow 1 100 { intValue := some 7 } (PyVal.int 7)).timestamp = 100 :=
  ⟨by decide,
    c2_stored_metric_timestamp ["spBv1.0", "G", "NDATA", "N"]
      { timestamp := some 100, metrics := some [{ intValue := some 7 }] }
      0 emptyDB (mkMetricRow 1 100 { intValue := some 7 } (PyVal.int 7))
      (by decide)⟩

/-- C3 counterexample: a true boolean metric value is stored as the Python
literal "True", which is neither of the literal pairs "true"/"false" and
"1"/"0" named by the claim. -/
theorem c3_boolean_renders_python_literal :
    ((store_data ["spBv1.0", "G", "NBIRTH", "N"]
        { timestamp := some 100,
          metrics := some [{ name := some "Status", datatype := some 11,
                             booleanValue := some true }] }
        0 emptyDB).metrics.map (fun r => r.value)) = ["True"] ∧
      "True" ≠ "true" ∧ "True" ≠ "false" ∧ "True" ≠ "1" ∧ "True" ≠ "0" :=
  ⟨rfl, by decide, by decide, by decide, by decide⟩

/-- C3 (amended): every stored metric value is the Python `str()` rendering
of the first populated value slot: integers render in base 10, booleans
render as the fixed literal pair "True"/"False", strings (including the
decimal text of 64-bit fields and the base64 text of byte fields produced
by the decode step) pass through unchanged, and floats keep their decoded
repr text. -/
theorem c3_canonical_rendering (parts : List String) (p : PayloadDict)
    (arrival : Nat) (st : DBState) (r : MetricRow)
    (hr : r ∈ (store_data parts p arrival st).metrics.drop st.metrics.length) :
    ∃ m v, m ∈ p.metrics.getD [] ∧ firstSlot m = some v ∧ r.value = pyStr v ∧
      (∀ n, v = PyVal.int n → r.value = toString n) ∧
      (∀ b, v = PyVal.bool b → r.value = if b then "True" else "False") ∧
      (∀ s, v = PyVal.str s → r.value = s) ∧
      (∀ f, v = PyVal.float f → r.value = f) := by
  rw [store_data_metrics, List.drop_left] at hr
  obtain ⟨m, hm, hEq⟩ := List.mem_filterMap.1 hr
  obtain ⟨v, hv, rfl⟩ := Option.map_eq_some'.1 hEq
  refine ⟨m, v, hm, hv, rfl, ?_, ?_, ?_, ?_⟩ <;> rintro x rfl <;> rfl

/-- Witness for the amended C3 at a concrete boolean metric. -/
theorem c3_canonical_rendering_witness :
    ∃ m v,
      m ∈ ({ timestamp := some 100,
             metrics := some [{ name := some "Status", datatype := some 11,
                                booleanValue := some true }] } :
              PayloadDict).metrics.getD [] ∧
      firstSlot m = some v ∧
      (mkMetricRow 1 100
        { name := some "Status", datatype := some 11, booleanValue := some true }
        (PyVal.bool true)).value = pyStr v ∧
      (∀ n, v = PyVal.int n →
        (mkMetricRow 1 100
          { name := some "Status", datatype := some 11, booleanValue := some true }
          (PyVal.bool true)).value = toString n) ∧
      (∀ b, v = PyVal.bool b →
        (mkMetricRow 1 100
          { name := some "Status", datatype := some 11, booleanValue := some true }
          (PyVal.bool true)).value = if b then "True" else "False") ∧
      (∀ s, v = PyVal.str s →
        (mkMetricRow 1 100
          { name := some "Status", datatype := some 11, booleanValue := some true }
          (PyVal.bool true)).value = s) ∧
      (∀ f, v = PyVal.float f →
        (mkMetricRow 1 100
          { name := some "Status", datatype := some 11, booleanValue := some true }
          (PyVal.bool true)).value = f) :=
  c3_canonical_rendering ["spBv1.0", "G", "NBIRTH", "N"] _ 0 emptyDB _ (by decide)

/-- C4 counterexample: a 3-segment namespace topic with a decodable payload
is not rejected — it produces a device upsert and a metric append, refuting
the claimed `ParseError(Truncated)` with zero mutations. -/
theorem c4_truncated_topic_still_stored :
    (on_message "spBv1.0/Group01/NDATA"
        (some { timestamp := some 100,
                metrics := some [{ name := some "T", datatype := some 3,
                                   intValue := some 7 }] })
        0 emptyDB).devices.length = 1 ∧
      (on_message "spBv1.0/Group01/NDATA"
        (some { timestamp := some 100,
                metrics := some [{ name := some "T", datatype := some 3,
                                   intValue := some 7 }] })
        0 emptyDB).metrics.length = 1 :=
  ⟨rfl, rfl⟩

/-- C4 (amended): a namespace topic with fewer than four segments is not
rejected; there is no truncation error.  Whenever the decoded payload dict
is non-empty (the truthiness guard of `on_message`), the message is
processed with the missing node/device segments defaulting to absent, and
it produces the usual device upsert (and metric appends): here
(Group01, NULL, NULL) with online = 1 and the message-level timestamp. -/
theorem c4_short_topic_processed (p : PayloadDict) (arrival : Nat)
    (st : DBState) (hp : pyTruthy p = true) :
    ∃ r ∈ (on_message "spBv1.0/Group01/NDATA" (some p) arrival st).devices,
      r.group_id = some "Group01" ∧ r.node_id = none ∧ r.device_id = none ∧
        r.timestamp = p.timestamp.getD arrival ∧ r.online = 1 := by
  rw [show on_message "spBv1.0/Group01/NDATA" (some p) arrival st =
        if pyTruthy p then
          store_data ["spBv1.0", "Group01", "NDATA"] p arrival st
        else st from rfl,
      if_pos hp, store_data_devices]
  simpa using
    devUpsert_mem (some "Group01") none none (p.timestamp.getD arrival) 1 st

/-- Witness for the amended C4 at a concrete non-empty payload. -/
theorem c4_short_topic_processed_witness :
    pyTruthy { timestamp := some 100 } = true ∧
      ∃ r ∈ (on_message "spBv1.0/Group01/NDATA"
          (some { timestamp := some 100 }) 0 emptyDB).devices,
        r.group_id = some "Group01" ∧ r.node_id = none ∧ r.device_id = none ∧
          r.timestamp = 100 ∧ r.online = 1 :=
  ⟨by decide,
    c4_short_topic_processed { timestamp := some 100 } 0 emptyDB (by decide)⟩

/-- C5: a payload that fails to decode (`parse_payload` returned `None`)
produces no storage mutation at all — the state after `on_message` is the
state before it, for every topic and every prior state; the failure is
handled per message and is not fatal. -/
theorem c5_decode_failure_leaves_state (topic : String) (arrival : Nat)
    (st : DBState) : on_message topic none arrival st = st := by
  simp [on_message]

/-- C6: the device row written by `store_data` has its online flag equal to
`online_flag` of the message-kind segment, for every payload (including an
empty one), and that flag is 0 exactly when the segment is NDEATH or
DDEATH. -/
theorem c6_online_flag_death_kinds (parts : List String) (p : PayloadDict)
    (arrival : Nat) (st : DBState) :
    ∃ r ∈ (store_data parts p arrival st).devices,
      r.group_id = parts[1]? ∧ r.node_id = parts[3]? ∧
        r.device_id = parts[4]? ∧ r.online = online_flag parts[2]? ∧
        (online_flag parts[2]? = 0 ↔
          (parts[2]? = some "NDEATH" ∨ parts[2]? = some "DDEATH")) := by
  rw [store_data_devices]
  obtain ⟨r, hr, h1, h2, h3, _, h5⟩ :=
    devUpsert_mem parts[1]? parts[3]? parts[4]? (p.timestamp.getD arrival)
      (online_flag parts[2]?) st
  exact ⟨r, hr, h1, h2, h3, h5, online_flag_eq_zero_iff _⟩

/-- C7: the number of metric rows appended by `store_data` equals the
number of decoded metric entries whose value-slot scan resolves; entries
with no value slot contribute nothing and are not an error. -/
theorem c7_metric_append_count (parts : List String) (p : PayloadDict)
    (arrival : Nat) (st : DBState) :
    (store_data parts p arrival st).metrics.length =
      st.metrics.length +
        ((p.metrics.getD []).filter (fun m => (firstSlot m).isSome)).length := by
  rw [store_data_metrics, List.length_append, length_filterMap_map_eq]

/-- C8: a topic whose first segment is not the namespace marker `spBv1.0`
is ignored by `on_message`: the state is unchanged for every decode result,
arrival time and prior state, and the branch simply returns (non-fatal). -/
theorem c8_not_in_namespace_ignored (topic : String)
    (decoded : Option PayloadDict) (arrival : Nat) (st : DBState)
    (h : (pySplit '/' topic)[0]? ≠ some "spBv1.0") :
    on_message topic decoded arrival st = st := by
  simp [on_message, h]

/-- Witness for C8 at a concrete out-of-namespace topic. -/
theorem c8_not_in_namespace_ignored_witness :
    (pySplit '/' "factory/Group01/NDATA/Node01")[0]? ≠ some "spBv1.0" ∧
      on_message "factory/Group01/NDATA/Node01" (some { timestamp := some 5 })
        0 emptyDB = emptyDB :=
  ⟨by decide, c8_not_in_namespace_ignored _ _ _ _ (by decide)⟩

/-- C9: for every payload built by folding the fixture generator's
`add_metric` over any list of (name, datatype, kwargs) requests, encoding
with the spec-modelled codec and decoding the result returns exactly the
original payload, hence a metric list equal field-for-field (datatype tag,
value slot, timestamp) to the original. -/
theorem c9_encode_decode_roundtrip (ts seq now : Nat)
    (specs : List (String × Nat × Kwargs)) :
    decodePayload (encodePayload (mkPayload ts seq now specs)) =
      some (mkPayload ts seq now specs) :=
  decode_encode _

/-- C10: the metric rows appended by `store_data` are exactly the image of
the fixed-order value-slot scan `firstSlot` (intValue, longValue,
floatValue, doubleValue, booleanValue, stringValue, bytesValue — first
present wins); the scan is independent of the datatype tag, and the row
stores the tag unchanged (defaulting to 0 when absent) next to the scanned
value's text. -/
theorem c10_slot_scan_order (parts : List String) (p : PayloadDict)
    (arrival : Nat) (st : DBState) :
    (store_data parts p arrival st).metrics =
      st.metrics ++ (p.metrics.getD []).filterMap (fun m =>
        (firstSlot m).map (mkMetricRow
          (devUpsert parts[1]? parts[3]? parts[4]? (p.timestamp.getD arrival)
            (online_flag parts[2]?) st).2
          (p.timestamp.getD arrival) m)) ∧
    (∀ (m : DecodedMetric) (d : Option Nat),
        firstSlot { m with datatype := d } = firstSlot m) ∧
    (∀ (m : DecodedMetric) (v : PyVal) (devId ts : Nat),
        (mkMetricRow devId ts m v).datatype = m.datatype.getD 0 ∧
          (mkMetricRow devId ts m v).value = pyStr v) :=
  ⟨store_data_metrics _ _ _ _, fun _ _ => rfl, fun _ _ _ _ => ⟨rfl, rfl⟩⟩

end MqttClient
